import Mathlib

/-!
Verification of the `vkdemos` example programs against their specification.

The repository is a set of single-file Vulkan example programs
(`vktriangle`, `vktriangle_glfw`, `vktriangle_subpass`,
`vktriangle_external_memory`, `vkcompute`).  This file gives a shallow
embedding of the pure/observable parts of those programs — the PPM image
dump, SPIR-V shader loading, environment-variable decoding, the
swapchain frame-driver loop, the subpass compose fragment shader, the
compute shader and the producer-thread synchronisation protocol — and
proves or refutes the frozen specification claims about them.

Bytes of files and mapped GPU memory are modelled as natural numbers
(each byte `< 256` where it matters); machine integers are `Nat`/`Int`
with explicit wrap-around where the source can overflow; fragment and
compute shader colour arithmetic is modelled over `ℚ`.
-/

namespace Vkdemos

/-! ## The PPM image dump

Every example that dumps an image uses the exact same routine
(`vktriangle.cpp` step 25, `DumpImage` in `vkcompute`, and the identical
inline blocks in `vktriangle_glfw`, `vktriangle_subpass` and
`vktriangle_external_memory`): it writes the header
`"P6\n<width>\n<height>\n255\n"`, then for each row `y` it writes 3 of
the 4 bytes of each of `width` pixels, advancing the source pointer by
`subResourceLayout.rowPitch` after every row and starting at
`subResourceLayout.offset`.
-/

/-- `VkSubresourceLayout`: the fields of the queried layout used by the dump. -/
structure SubresourceLayout where
  offset : Nat
  rowPitch : Nat
deriving DecidableEq

/-- Mapped GPU memory: a byte (as `Nat`) for every address. -/
def Memory : Type := Nat → Nat

/-- The PPM header written by `file << "P6\n" << w << "\n" << h << "\n" << 255 << "\n"`. -/
def ppmHeaderString (width height : Nat) : String :=
  "P6\n" ++ toString width ++ "\n" ++ toString height ++ "\n" ++ toString 255 ++ "\n"

/-- The bytes of the PPM header (ASCII codes of the header string). -/
def ppmHeaderBytes (width height : Nat) : List Nat :=
  (ppmHeaderString width height).toList.map Char.toNat

/-- One row of the dump's inner loop, starting at pixel `x` with `count`
pixels left: `file.write((const char*)row, 3)` writes the first three of
the four bytes of the pixel at `rowBase + 4*x`, the fourth (alpha) byte
is skipped (`row++` advances by a whole `uint32_t`). -/
def rowBytesFrom (mem : Memory) (rowBase : Nat) : Nat → Nat → List Nat
  | _, 0 => []
  | x, count + 1 =>
      mem (rowBase + 4 * x) :: mem (rowBase + 4 * x + 1) :: mem (rowBase + 4 * x + 2) ::
        rowBytesFrom mem rowBase (x + 1) count

/-- The dump's outer loop, starting at row `y` with `count` rows left:
each row reads `width` pixels starting at `offset + y * rowPitch`
(`data += subResourceLayout.rowPitch`). -/
def pixelRowsFrom (mem : Memory) (offset rowPitch width : Nat) : Nat → Nat → List Nat
  | _, 0 => []
  | y, count + 1 =>
      rowBytesFrom mem (offset + y * rowPitch) 0 width ++
        pixelRowsFrom mem offset rowPitch width (y + 1) count

/-- The raw pixel bytes written after the header. -/
def dumpPixelBytes (width height : Nat) (layout : SubresourceLayout) (mem : Memory) : List Nat :=
  pixelRowsFrom mem layout.offset layout.rowPitch width 0 height

/-- The full byte content of the PPM file written by the shared dump routine. -/
def dumpPPM (width height : Nat) (layout : SubresourceLayout) (mem : Memory) : List Nat :=
  ppmHeaderBytes width height ++ dumpPixelBytes width height layout mem

/-- The render image size configured in `vktriangle.cpp` (step 5) and in
`vkcompute` (`CreateVulkan2DImage(..., 256, 256, ...)`). -/
def renderImageWidth : Nat := 256

/-- The configured render image height (see `renderImageWidth`). -/
def renderImageHeight : Nat := 256

lemma rowBytesFrom_length (mem : Memory) (rowBase : Nat) :
    ∀ count x, (rowBytesFrom mem rowBase x count).length = 3 * count := by
  intro count
  induction count with
  | zero => intro x; simp [rowBytesFrom]
  | succ k ih =>
      intro x
      simp [rowBytesFrom, ih (x + 1)]
      ring

lemma rowBytesFrom_getD (mem : Memory) (rowBase : Nat) :
    ∀ count x i, i < 3 * count →
      (rowBytesFrom mem rowBase x count).getD i 0 = mem (rowBase + 4 * (x + i / 3) + i % 3) := by
  intro count
  induction count with
  | zero => intro x i hi; omega
  | succ k ih =>
      intro x i hi
      match i, hi with
      | 0, _ => simp [rowBytesFrom]
      | 1, _ => simp [rowBytesFrom]
      | 2, _ => simp [rowBytesFrom]
      | (j + 3), hj =>
          have hjk : j < 3 * k := by omega
          have : (rowBytesFrom mem rowBase x (k + 1)).getD (j + 3) 0
              = (rowBytesFrom mem rowBase (x + 1) k).getD j 0 := by
            simp [rowBytesFrom]
          rw [this, ih (x + 1) j hjk]
          have h3 : (j + 3) / 3 = j / 3 + 1 := by omega
          have h4 : (j + 3) % 3 = j % 3 := by omega
          rw [h3, h4]
          ring_nf

lemma pixelRowsFrom_length (mem : Memory) (offset rowPitch width : Nat) :
    ∀ count y, (pixelRowsFrom mem offset rowPitch width y count).length = 3 * width * count := by
  intro count
  induction count with
  | zero => intro y; simp [pixelRowsFrom]
  | succ k ih =>
      intro y
      simp [pixelRowsFrom, ih (y + 1), rowBytesFrom_length]
      ring

lemma pixelRowsFrom_getD (mem : Memory) (offset rowPitch width : Nat) :
    ∀ count y0 y x c, y < count → x < width → c < 3 →
      (pixelRowsFrom mem offset rowPitch width y0 count).getD (3 * (y * width + x) + c) 0
        = mem (offset + (y0 + y) * rowPitch + 4 * x + c) := by
  intro count
  induction count with
  | zero => intro y0 y x c hy hx hc; omega
  | succ k ih =>
      intro y0 y x c hy hx hc
      match y, hy with
      | 0, _ =>
          have hidx : 3 * (0 * width + x) + c < 3 * width := by omega
          have hlen := rowBytesFrom_length mem (offset + y0 * rowPitch) width 0
          rw [pixelRowsFrom, List.getD_append _ _ _ _ (by omega)]
          rw [rowBytesFrom_getD mem (offset + y0 * rowPitch) width 0 _ hidx]
          have h1 : (3 * (0 * width + x) + c) / 3 = x := by omega
          have h2 : (3 * (0 * width + x) + c) % 3 = c := by omega
          rw [h1, h2]
          ring_nf
      | (y' + 1), hy' =>
          have hlen := rowBytesFrom_length mem (offset + y0 * rowPitch) width 0
          have hge : 3 * ((y' + 1) * width + x) + c ≥ 3 * width := by
            have : (y' + 1) * width = y' * width + width := by ring
            omega
          rw [pixelRowsFrom, List.getD_append_right _ _ _ _ (by omega)]
          have harg : 3 * ((y' + 1) * width + x) + c - (rowBytesFrom mem (offset + y0 * rowPitch) 0 width).length
              = 3 * (y' * width + x) + c := by
            rw [hlen]
            have : (y' + 1) * width = y' * width + width := by ring
            omega
          rw [harg, ih (y0 + 1) y' x c (by omega) hx hc]
          have : y0 + 1 + y' = y0 + (y' + 1) := by omega
          rw [this]

/-- C1.  For every example that dumps an image, the written file is the
PPM header `"P6\n<width>\n<height>\n255\n"` reporting the configured
render width and height (max channel value `255`), followed by
row-major RGB triplets: the byte at triplet position `3*(y*width+x)+c`
(`c < 3`) is byte `c` of the 4-byte pixel at source address
`offset + y*rowPitch + 4*x`, so the alpha byte (`c = 3`) is dropped and
consecutive rows of the written data are `rowPitch` apart in the mapped
source memory — the device-reported row pitch, not necessarily
`width*3`. -/
theorem dump_ppm_is_p6_with_pitch_stride (width height : Nat) (layout : SubresourceLayout)
    (mem : Memory) :
    dumpPPM width height layout mem
        = ppmHeaderBytes width height ++ dumpPixelBytes width height layout mem
      ∧ ppmHeaderString width height
          = "P6\n" ++ toString width ++ "\n" ++ toString height ++ "\n" ++ "255" ++ "\n"
      ∧ (dumpPixelBytes width height layout mem).length = 3 * width * height
      ∧ ∀ y x c, y < height → x < width → c < 3 →
          (dumpPixelBytes width height layout mem).getD (3 * (y * width + x) + c) 0
            = mem (layout.offset + y * layout.rowPitch + 4 * x + c) := by
  refine ⟨rfl, rfl, pixelRowsFrom_length mem layout.offset layout.rowPitch width height 0, ?_⟩
  intro y x c hy hx hc
  have := pixelRowsFrom_getD mem layout.offset layout.rowPitch width height 0 y x c hy hx hc
  simpa using this

/-- Witness for `dump_ppm_is_p6_with_pitch_stride`: a concrete 2×2 image
with row pitch 9 (≠ 2*4); the pixel byte at `(y,x,c) = (1,1,2)` of the
dump is source byte `1 + 1*9 + 4*1 + 2 = 16`. -/
theorem dump_ppm_is_p6_with_pitch_stride_witness :
    (dumpPixelBytes 2 2 ⟨1, 9⟩ (fun a => a)).getD (3 * (1 * 2 + 1) + 2) 0 = 16 := by
  have h := (dump_ppm_is_p6_with_pitch_stride 2 2 ⟨1, 9⟩ (fun a => a)).2.2.2
    1 1 2 (by decide) (by decide) (by decide)
  simpa using h

/-! ## SPIR-V shader loading (`LoadSPIRV`, `vktriangle.cpp` lines 1034-1055)

The file system is modelled as a partial map from names to byte lists
(`none` = the file cannot be opened).  `file.read((char*)buffer.data(),
fileSize)` into a `std::vector<uint32_t>` assembles every 4 consecutive
bytes into one 32-bit word in host (little-endian) order. -/

/-- A file system: file name to file contents, `none` when opening fails. -/
def FileSystem : Type := String → Option (List Nat)

/-- A 32-bit word assembled from 4 bytes in little-endian host order. -/
def wordOfBytes (b0 b1 b2 b3 : Nat) : Nat :=
  b0 + 256 * b1 + 65536 * b2 + 16777216 * b3

/-- The 4 bytes of a 32-bit word, lowest address first. -/
def wordBytes (w : Nat) : List Nat :=
  [w % 256, w / 256 % 256, w / 65536 % 256, w / 16777216 % 256]

/-- `file.read` into a `uint32_t` vector: every 4 consecutive bytes become one word. -/
def bytesToWords : List Nat → List Nat
  | b0 :: b1 :: b2 :: b3 :: rest => wordOfBytes b0 b1 b2 b3 :: bytesToWords rest
  | _ => []

/-- Concatenation of the byte representations of a word list. -/
def wordsToBytes : List Nat → List Nat
  | [] => []
  | w :: rest => wordBytes w ++ wordsToBytes rest

/-- `LoadSPIRV`: open the file (throw if it cannot be opened), take its size
via `tellg`, throw if the size is not divisible by `sizeof(uint32_t)`,
otherwise read `fileSize/4` 32-bit words. -/
def LoadSPIRV (fs : FileSystem) (name : String) : Except String (List Nat) :=
  match fs name with
  | none => Except.error ("failed to open file: " ++ name)
  | some bytes =>
      if bytes.length % 4 ≠ 0 then
        Except.error ("spirv file is not divisable by 4: " ++ name)
      else
        Except.ok (bytesToWords bytes)

lemma wordBytes_wordOfBytes (b0 b1 b2 b3 : Nat)
    (h0 : b0 < 256) (h1 : b1 < 256) (h2 : b2 < 256) (h3 : b3 < 256) :
    wordBytes (wordOfBytes b0 b1 b2 b3) = [b0, b1, b2, b3] := by
  simp only [wordBytes, wordOfBytes]
  refine List.ext_getElem (by simp) ?_
  intro i hi _
  match i, hi with
  | 0, _ => simp; omega
  | 1, _ => simp; omega
  | 2, _ => simp; omega
  | 3, _ => simp; omega

lemma bytesToWords_length : ∀ bytes : List Nat,
    (bytesToWords bytes).length = bytes.length / 4
  | [] => by simp [bytesToWords]
  | [_] => by simp [bytesToWords]
  | [_, _] => by simp [bytesToWords]
  | [_, _, _] => by simp [bytesToWords]
  | b0 :: b1 :: b2 :: b3 :: rest => by
      simp [bytesToWords, bytesToWords_length rest]
      omega

lemma wordsToBytes_bytesToWords : ∀ bytes : List Nat, bytes.length % 4 = 0 →
    (∀ b ∈ bytes, b < 256) → wordsToBytes (bytesToWords bytes) = bytes
  | [] => by intro _ _; simp [bytesToWords, wordsToBytes]
  | [_] => by intro hlen _; simp at hlen
  | [_, _] => by intro hlen _; simp at hlen
  | [_, _, _] => by intro hlen _; simp at hlen
  | b0 :: b1 :: b2 :: b3 :: rest => by
      intro hlen hbound
      have h0 : b0 < 256 := hbound b0 (by simp)
      have h1 : b1 < 256 := hbound b1 (by simp)
      have h2 : b2 < 256 := hbound b2 (by simp)
      have h3 : b3 < 256 := hbound b3 (by simp)
      have hrest : rest.length % 4 = 0 := by
        simp only [List.length_cons] at hlen
        omega
      have hbrest : ∀ b ∈ rest, b < 256 := fun b hb => hbound b (by simp [hb])
      simp [bytesToWords, wordsToBytes, wordBytes_wordOfBytes b0 b1 b2 b3 h0 h1 h2 h3,
        wordsToBytes_bytesToWords rest hrest hbrest]

/-- C8.  `LoadSPIRV` raises an error if and only if the file cannot be
opened or its byte size is not divisible by 4; otherwise it returns
exactly `fileSize/4` 32-bit words whose bytes (in host order) equal the
file's contents. -/
theorem loadSPIRV_error_iff_and_roundtrip (fs : FileSystem) (name : String) :
    ((∃ e, LoadSPIRV fs name = Except.error e) ↔
        fs name = none ∨ ∃ bytes, fs name = some bytes ∧ bytes.length % 4 ≠ 0)
      ∧ ∀ bytes, fs name = some bytes → bytes.length % 4 = 0 → (∀ b ∈ bytes, b < 256) →
          LoadSPIRV fs name = Except.ok (bytesToWords bytes)
            ∧ (bytesToWords bytes).length = bytes.length / 4
            ∧ wordsToBytes (bytesToWords bytes) = bytes := by
  constructor
  · constructor
    · rintro ⟨e, he⟩
      unfold LoadSPIRV at he
      match hfs : fs name with
      | none => exact Or.inl rfl
      | some bytes =>
          rw [hfs] at he
          by_cases hmod : bytes.length % 4 ≠ 0
          · exact Or.inr ⟨bytes, rfl, hmod⟩
          · simp [hmod] at he
    · rintro (hnone | ⟨bytes, hfs, hmod⟩)
      · exact ⟨"failed to open file: " ++ name, by simp [LoadSPIRV, hnone]⟩
      · exact ⟨"spirv file is not divisable by 4: " ++ name, by simp [LoadSPIRV, hfs, hmod]⟩
  · intro bytes hfs hmod hbound
    have hok : LoadSPIRV fs name = Except.ok (bytesToWords bytes) := by
      unfold LoadSPIRV
      rw [hfs]
      simp [hmod]
    exact ⟨hok, bytesToWords_length bytes, wordsToBytes_bytesToWords bytes hmod hbound⟩

/-- Witness for `loadSPIRV_error_iff_and_roundtrip`: a file system with
one 8-byte file; loading it succeeds with 2 words whose bytes round-trip,
and loading a missing name errors. -/
theorem loadSPIRV_error_iff_and_roundtrip_witness :
    LoadSPIRV (fun n => if n = "a.spv" then some [1, 2, 3, 4, 5, 6, 7, 8] else none) "a.spv"
        = Except.ok [67305985, 134678021]
      ∧ wordsToBytes [67305985, 134678021] = [1, 2, 3, 4, 5, 6, 7, 8]
      ∧ ∃ e, LoadSPIRV (fun n => if n = "a.spv" then some [1, 2, 3, 4, 5, 6, 7, 8] else none)
          "missing.spv" = Except.error e := by
  have h := loadSPIRV_error_iff_and_roundtrip
    (fun n => if n = "a.spv" then some [1, 2, 3, 4, 5, 6, 7, 8] else none) "a.spv"
  have h2 := h.2 [1, 2, 3, 4, 5, 6, 7, 8] (by decide) (by decide) (by decide)
  have h3 := (loadSPIRV_error_iff_and_roundtrip
      (fun n => if n = "a.spv" then some [1, 2, 3, 4, 5, 6, 7, 8] else none) "missing.spv").1.2
    (Or.inl (by decide))
  refine ⟨?_, ?_, h3⟩
  · have := h2.1
    simpa [show bytesToWords [1, 2, 3, 4, 5, 6, 7, 8] = [67305985, 134678021] from by decide]
      using this
  · have := h2.2.2
    simpa [show bytesToWords [1, 2, 3, 4, 5, 6, 7, 8] = [67305985, 134678021] from by decide]
      using this

/-! ## Environment-variable decoding

All five example programs begin `main` with the identical block

```
const char *envValidation = getenv("DEMO_USE_VALIDATION");
const char *envOutputName = getenv("DEMO_OUTPUT");
bool enableValidationLayers = ((envValidation != NULL) && (strncmp("1", envValidation, 2) == 0));
const char *outputFileName = "out.ppm";
if (envOutputName != NULL) { outputFileName = envOutputName; }
```

Environment-variable values are modelled as the byte lists of their C
strings (NUL-free, since POSIX environment values cannot contain a NUL
byte); `none` models an unset variable (`getenv` returning `NULL`). -/

/-- The byte codes of a string literal (what the C source's `char*` sees). -/
def strBytes (s : String) : List Nat :=
  s.toList.map Char.toNat

/-- C `strncmp`: compare at most `n` characters of two NUL-terminated
strings (a list models the characters before the terminating NUL, so the
character after the end of the list is `0`). -/
def strncmp : List Nat → List Nat → Nat → Int
  | _, _, 0 => 0
  | a, b, n + 1 =>
      let ca := a.headD 0
      let cb := b.headD 0
      if ca ≠ cb then (ca : Int) - (cb : Int)
      else if ca = 0 then 0
      else strncmp a.tail b.tail n

/-- The process environment observed via `getenv`. -/
structure EnvState where
  demoUseValidation : Option (List Nat)
  demoOutput : Option (List Nat)

/-- The two configuration values derived from the environment. -/
structure DemoConfig where
  enableValidationLayers : Bool
  outputFileName : List Nat
deriving DecidableEq

/-- The environment decoding of `vktriangle.cpp` (lines 108-116). -/
def decodeEnvVktriangle (env : EnvState) : DemoConfig :=
  { enableValidationLayers :=
      match env.demoUseValidation with
      | none => false
      | some v => strncmp (strBytes "1") v 2 == 0
    outputFileName :=
      match env.demoOutput with
      | none => strBytes "out.ppm"
      | some v => v }

/-- The environment decoding of `vktriangle_glfw.cpp` (lines 115-123). -/
def decodeEnvGlfw (env : EnvState) : DemoConfig :=
  { enableValidationLayers :=
      match env.demoUseValidation with
      | none => false
      | some v => strncmp (strBytes "1") v 2 == 0
    outputFileName :=
      match env.demoOutput with
      | none => strBytes "out.ppm"
      | some v => v }

/-- The environment decoding of `vktriangle_subpass.cpp` (lines 182-190). -/
def decodeEnvSubpass (env : EnvState) : DemoConfig :=
  { enableValidationLayers :=
      match env.demoUseValidation with
      | none => false
      | some v => strncmp (strBytes "1") v 2 == 0
    outputFileName :=
      match env.demoOutput with
      | none => strBytes "out.ppm"
      | some v => v }

/-- The environment decoding of `vktriangle_external_memory.cpp` (lines 984-992). -/
def decodeEnvExternalMemory (env : EnvState) : DemoConfig :=
  { enableValidationLayers :=
      match env.demoUseValidation with
      | none => false
      | some v => strncmp (strBytes "1") v 2 == 0
    outputFileName :=
      match env.demoOutput with
      | none => strBytes "out.ppm"
      | some v => v }

/-- The environment decoding of `vkcompute.cpp` (lines 56-64). -/
def decodeEnvVkcompute (env : EnvState) : DemoConfig :=
  { enableValidationLayers :=
      match env.demoUseValidation with
      | none => false
      | some v => strncmp (strBytes "1") v 2 == 0
    outputFileName :=
      match env.demoOutput with
      | none => strBytes "out.ppm"
      | some v => v }

lemma strncmp_one_eq_zero_iff (v : List Nat) (hv : 0 ∉ v) :
    strncmp (strBytes "1") v 2 = 0 ↔ v = strBytes "1" := by
  have hone : strBytes "1" = [49] := by decide
  rw [hone]
  match v with
  | [] =>
      constructor
      · intro h
        exact absurd h (by decide)
      · intro h
        exact absurd h (by simp)
  | c :: rest =>
      by_cases h49 : c = 49
      · subst h49
        have step : strncmp [49] (49 :: rest) 2 = strncmp [] rest 1 := rfl
        rw [step]
        match rest with
        | [] => simp [strncmp]
        | d :: rest' =>
            have hd : d ≠ 0 := fun h => hv (by simp [h])
            have hval : strncmp [] (d :: rest') 1 = -(d : Int) := by
              simp [strncmp, hd, Ne.symm hd]
            rw [hval]
            constructor
            · intro h
              exfalso
              have : d = 0 := by omega
              exact hd this
            · intro h
              exact absurd h (by simp)
      · have hval : strncmp [49] (c :: rest) 2 = (49 : Int) - c := by
          simp [strncmp, Ne.symm h49]
        rw [hval]
        constructor
        · intro h
          exfalso
          apply h49
          omega
        · intro h
          exfalso
          apply h49
          have : c :: rest = [49] := h
          injection this with h1 _


/-- C7.  For every run of every example, validation layers are enabled
iff `DEMO_USE_VALIDATION` is set to exactly the string `"1"`, and the
output file name equals the value of `DEMO_OUTPUT` when set and
`"out.ppm"` otherwise; the decoding is identical across all five
examples.  (NUL-freeness of the set values is a well-formedness fact of
POSIX environment strings.) -/
theorem env_decoding_uniform (env : EnvState)
    (hval : ∀ v, env.demoUseValidation = some v → 0 ∉ v) :
    ((decodeEnvVktriangle env).enableValidationLayers = true ↔
        env.demoUseValidation = some (strBytes "1"))
      ∧ (decodeEnvVktriangle env).outputFileName
          = (match env.demoOutput with
             | none => strBytes "out.ppm"
             | some v => v)
      ∧ decodeEnvVktriangle = decodeEnvGlfw
      ∧ decodeEnvVktriangle = decodeEnvSubpass
      ∧ decodeEnvVktriangle = decodeEnvExternalMemory
      ∧ decodeEnvVktriangle = decodeEnvVkcompute := by
  refine ⟨?_, rfl, rfl, rfl, rfl, rfl⟩
  match henv : env.demoUseValidation with
  | none => simp [decodeEnvVktriangle, henv]
  | some v =>
      have hv := hval v henv
      simp only [decodeEnvVktriangle, henv, beq_iff_eq, Option.some.injEq]
      rw [strncmp_one_eq_zero_iff v hv]

/-- Witness for `env_decoding_uniform`: with `DEMO_USE_VALIDATION=1` and
`DEMO_OUTPUT` unset, validation is on and the output name is `out.ppm`. -/
theorem env_decoding_uniform_witness :
    (decodeEnvVktriangle ⟨some (strBytes "1"), none⟩).enableValidationLayers = true
      ∧ (decodeEnvVktriangle ⟨some (strBytes "1"), none⟩).outputFileName = strBytes "out.ppm" := by
  have h := env_decoding_uniform ⟨some (strBytes "1"), none⟩
    (by intro v hv hmem; simp at hv; subst hv; revert hmem; decide)
  exact ⟨h.1.mpr rfl, h.2.1⟩

/-! ## The frame-driver loop

The swapchain-based examples (`vktriangle_glfw.cpp` lines 1023-1090,
`vktriangle_subpass.cpp` lines 1215-1307, `vktriangle_external_memory.cpp`
lines 1608-1668) drive presentation with the identical loop body:

```
vkWaitForFences(device, 1, &activeFences[activeSyncIdx], VK_TRUE, UINT64_MAX);     // result ignored
vkAcquireNextImageKHR(device, swapchain, UINT64_MAX,
                      imageAvailableSemaphores[activeSyncIdx], VK_NULL_HANDLE, &imageIndex); // result ignored
if (swapImagesFences[imageIndex] != VK_NULL_HANDLE)
    vkWaitForFences(device, 1, &swapImagesFences[imageIndex], VK_TRUE, UINT64_MAX); // result ignored
swapImagesFences[imageIndex] = activeFences[activeSyncIdx];
vkResetFences(device, 1, &activeFences[activeSyncIdx]);                             // result ignored
if (vkQueueSubmit(queue, 1, &submitInfo, activeFences[activeSyncIdx]) != VK_SUCCESS)
    throw std::runtime_error("failed to submit command buffer!");
vkQueuePresentKHR(queue, &presentInfo);                                             // result ignored
activeSyncIdx = (activeSyncIdx + 1) % imagesInFlight;
```

Per-frame fences are identified with their slot index (`activeFences[i] = i`);
semaphores with their slot index.  Each native call's `VkResult` is an
input of the iteration (the driver chooses it); the body records which
results it inspects. -/

/-- `VK_SUCCESS` is 0; every other value is a non-success result. -/
def VK_SUCCESS : Int := 0

/-- `imagesInFlight`, the number of in-flight slots (N): 2 in all examples. -/
def imagesInFlight : Nat := 2

/-- Observable events of one frame-loop iteration, in program order. -/
inductive FrameEvent where
  /-- `vkWaitForFences` on the fence of in-flight slot `slot`. -/
  | waitFence (slot : Nat)
  /-- `vkAcquireNextImageKHR` yielding destination image `image`,
  signalling `imageAvailableSemaphores[sem]`. -/
  | acquire (image : Nat) (sem : Nat)
  /-- `vkResetFences` on the fence of slot `slot`. -/
  | resetFence (slot : Nat)
  /-- `vkQueueSubmit` of `cmdBuffers[image]`, waiting on
  `imageAvailableSemaphores[waitSem]`, signalling fence `signalFence` and
  `renderFinishedSemaphores[signalSem]`. -/
  | submit (image : Nat) (signalFence : Nat) (waitSem : Nat) (signalSem : Nat)
  /-- `vkQueuePresentKHR` of `image` gated on `renderFinishedSemaphores[waitSem]`. -/
  | present (image : Nat) (waitSem : Nat)
deriving DecidableEq

/-- The loop state carried across iterations: the in-flight slot index and
the per-image fence table (`none` = `VK_NULL_HANDLE`). -/
structure FrameLoopState where
  activeSyncIdx : Nat
  swapImagesFences : List (Option Nat)
deriving DecidableEq

/-- The per-iteration inputs decided outside the program: the image index
the driver returns from `vkAcquireNextImageKHR` and the `VkResult` of
each native call of the body. -/
structure FrameLoopInput where
  acquiredImage : Nat
  waitRes : Int
  acquireRes : Int
  guardWaitRes : Int
  resetRes : Int
  submitRes : Int
  presentRes : Int
deriving DecidableEq

/-- The guard's events: wait on the per-image fence table entry when it is
not `VK_NULL_HANDLE`. -/
def guardEvents (st : FrameLoopState) (image : Nat) : List FrameEvent :=
  match st.swapImagesFences.getD image none with
  | some f => [FrameEvent.waitFence f]
  | none => []

/-- One iteration of the frame-driver loop body.  `Except.error` models the
uncaught `throw std::runtime_error(...)` aborting the program.  Returns
the next state and the iteration's event trace. -/
def frameLoopBody (st : FrameLoopState) (inp : FrameLoopInput) :
    Except String (FrameLoopState × List FrameEvent) :=
  let i := st.activeSyncIdx
  -- G.25.1: vkWaitForFences(activeFences[i]); inp.waitRes is not inspected.
  -- G.25.2: vkAcquireNextImageKHR -> imageIndex; inp.acquireRes is not inspected.
  let m := inp.acquiredImage
  -- G.25.3: guard on swapImagesFences[imageIndex]; inp.guardWaitRes is not inspected.
  let evs := [FrameEvent.waitFence i, FrameEvent.acquire m i] ++ guardEvents st m
  -- swapImagesFences[imageIndex] = activeFences[i]
  let fences := st.swapImagesFences.set m (some i)
  -- vkResetFences(activeFences[i]); inp.resetRes is not inspected.
  let evs := evs ++ [FrameEvent.resetFence i]
  -- G.25.4: vkQueueSubmit is the only call whose result is checked.
  if inp.submitRes ≠ VK_SUCCESS then
    Except.error "failed to submit command buffer!"
  else
    -- vkQueuePresentKHR; inp.presentRes is not inspected.
    let evs := evs ++ [FrameEvent.submit m i i i, FrameEvent.present m i]
    Except.ok ({ activeSyncIdx := (i + 1) % imagesInFlight, swapImagesFences := fences }, evs)

/-- C3.  Every iteration of the frame-driver loop, in order: waits on slot
`i`'s completion fence, acquires the next presentable image index `m`,
optionally waits on `m`'s table fence, resets and then signals slot `i`'s
fence by submitting the prerecorded command buffer `cmdBuffers[m]`
together with the render-finished semaphore of slot `i`, requests
presentation of `m` gated on that semaphore, and sets
`i = (i + 1) mod 2`; the slot index stays in `[0, N)` with
`N = imagesInFlight = 2`. -/
theorem frame_loop_order_and_index (st : FrameLoopState) (inp : FrameLoopInput)
    (hsub : inp.submitRes = VK_SUCCESS) :
    frameLoopBody st inp
        = Except.ok
            ({ activeSyncIdx := (st.activeSyncIdx + 1) % 2,
               swapImagesFences := st.swapImagesFences.set inp.acquiredImage
                 (some st.activeSyncIdx) },
              [FrameEvent.waitFence st.activeSyncIdx,
               FrameEvent.acquire inp.acquiredImage st.activeSyncIdx]
                ++ guardEvents st inp.acquiredImage
                ++ [FrameEvent.resetFence st.activeSyncIdx,
                    FrameEvent.submit inp.acquiredImage st.activeSyncIdx st.activeSyncIdx
                      st.activeSyncIdx,
                    FrameEvent.present inp.acquiredImage st.activeSyncIdx])
      ∧ (st.activeSyncIdx + 1) % 2 < imagesInFlight := by
  constructor
  · simp [frameLoopBody, hsub, imagesInFlight, VK_SUCCESS]
  · simp [imagesInFlight]
    omega

/-- Witness for `frame_loop_order_and_index` at a concrete state and input. -/
theorem frame_loop_order_and_index_witness :
    frameLoopBody ⟨1, [some 0, none]⟩ ⟨0, 0, 0, 0, 0, 0, 0⟩
        = Except.ok (⟨0, [some 1, none]⟩,
            [FrameEvent.waitFence 1, FrameEvent.acquire 0 1, FrameEvent.waitFence 0,
             FrameEvent.resetFence 1, FrameEvent.submit 0 1 1 1, FrameEvent.present 0 1]) := by
  have h := (frame_loop_order_and_index ⟨1, [some 0, none]⟩ ⟨0, 0, 0, 0, 0, 0, 0⟩ rfl).1
  simpa [guardEvents] using h

/-- C4.  If the acquired image's entry in the per-image fence table is
non-null (`some f`), the iteration waits on `f` (event index 2) strictly
before the submit event, and the table entry for that image is replaced
by slot `i`'s fence; so the command buffer is only submitted after the
wait on the prior owning slot's fence has returned, i.e. never while
that fence is still unsignaled. -/
theorem frame_loop_guard (st : FrameLoopState) (inp : FrameLoopInput) (f : Nat)
    (hsub : inp.submitRes = VK_SUCCESS)
    (hf : st.swapImagesFences.getD inp.acquiredImage none = some f) :
    ∃ st' pre post,
      frameLoopBody st inp = Except.ok (st', pre ++ FrameEvent.submit inp.acquiredImage
          st.activeSyncIdx st.activeSyncIdx st.activeSyncIdx :: post)
        ∧ FrameEvent.waitFence f ∈ pre
        ∧ st'.swapImagesFences.getD inp.acquiredImage none = some st.activeSyncIdx
        ∧ inp.acquiredImage < st.swapImagesFences.length := by
  have hlt : inp.acquiredImage < st.swapImagesFences.length := by
    by_contra hge
    rw [List.getD_eq_default] at hf
    · exact Option.noConfusion hf
    · omega
  refine ⟨FrameLoopState.mk ((st.activeSyncIdx + 1) % 2)
      (st.swapImagesFences.set inp.acquiredImage (some st.activeSyncIdx)),
    [FrameEvent.waitFence st.activeSyncIdx,
      FrameEvent.acquire inp.acquiredImage st.activeSyncIdx, FrameEvent.waitFence f,
      FrameEvent.resetFence st.activeSyncIdx],
    [FrameEvent.present inp.acquiredImage st.activeSyncIdx], ?_, by simp, ?_, hlt⟩
  · have h := (frame_loop_order_and_index st inp hsub).1
    rw [h]
    have hg : guardEvents st inp.acquiredImage = [FrameEvent.waitFence f] := by
      unfold guardEvents
      rw [hf]
    rw [hg]
    simp
  · simp [List.getD_eq_getElem?_getD]
    rw [List.getElem?_set_self]
    · simp
    · exact hlt

/-- Witness for `frame_loop_guard` at a concrete state with an owned image. -/
theorem frame_loop_guard_witness :
    ∃ st' pre post,
      frameLoopBody ⟨0, [some 1]⟩ ⟨0, 0, 0, 0, 0, 0, 0⟩
          = Except.ok (st', pre ++ FrameEvent.submit 0 0 0 0 :: post)
        ∧ FrameEvent.waitFence 1 ∈ pre
        ∧ st'.swapImagesFences.getD 0 none = some 0
        ∧ (0 : Nat) < ([some 1] : List (Option Nat)).length :=
  frame_loop_guard ⟨0, [some 1]⟩ ⟨0, 0, 0, 0, 0, 0, 0⟩ 1 rfl (by decide)

/-- The claim C2 as stated: in the frame-driver loop, every native API
call's non-success result aborts the program.  This is false on the
code: only `vkQueueSubmit`'s result is checked.  Concretely, an
iteration whose `vkAcquireNextImageKHR` returns a non-success result
(here `VK_ERROR_DEVICE_LOST = -4`) completes normally. -/
theorem frame_loop_ignores_acquire_failure :
    (⟨0, -4, -4, 0, 0, 0, 0⟩ : FrameLoopInput).acquireRes ≠ VK_SUCCESS
      ∧ (⟨0, -4, -4, 0, 0, 0, 0⟩ : FrameLoopInput).waitRes ≠ VK_SUCCESS
      ∧ ∃ out, frameLoopBody ⟨0, [none]⟩ ⟨0, -4, -4, 0, 0, 0, 0⟩ = Except.ok out := by
  refine ⟨by decide, by decide, ⟨⟨1, [some 0]⟩, [FrameEvent.waitFence 0, FrameEvent.acquire 0 0,
    FrameEvent.resetFence 0, FrameEvent.submit 0 0 0 0, FrameEvent.present 0 0]⟩, by rfl⟩

/-- C2 (amended).  In the frame-driver loop body the only native call
whose result is inspected is `vkQueueSubmit`: an iteration aborts the
program (uncaught `std::runtime_error`) if and only if the submit result
is non-success; the results of the fence waits, the image acquire, the
fence reset and the present are ignored, and there is no retry — the
aborting iteration performs no further call and a non-aborting iteration
performs each call exactly once. -/
theorem frame_loop_fatal_iff_submit_fails (st : FrameLoopState) (inp : FrameLoopInput) :
    ((∃ e, frameLoopBody st inp = Except.error e) ↔ inp.submitRes ≠ VK_SUCCESS)
      ∧ (inp.submitRes ≠ VK_SUCCESS →
          frameLoopBody st inp = Except.error "failed to submit command buffer!")
      ∧ ∀ st' evs, frameLoopBody st inp = Except.ok (st', evs) →
          evs.count (FrameEvent.waitFence st.activeSyncIdx) ≥ 1
            ∧ evs.count (FrameEvent.acquire inp.acquiredImage st.activeSyncIdx) = 1
            ∧ evs.count (FrameEvent.resetFence st.activeSyncIdx) = 1
            ∧ evs.count (FrameEvent.submit inp.acquiredImage st.activeSyncIdx st.activeSyncIdx
                st.activeSyncIdx) = 1
            ∧ evs.count (FrameEvent.present inp.acquiredImage st.activeSyncIdx) = 1 := by
  by_cases hsub : inp.submitRes = VK_SUCCESS
  · have h := (frame_loop_order_and_index st inp hsub).1
    refine ⟨⟨?_, ?_⟩, ?_, ?_⟩
    · rintro ⟨e, he⟩
      rw [h] at he
      exact Except.noConfusion he
    · intro hne
      exact absurd hsub hne
    · intro hne
      exact absurd hsub hne
    · intro st' evs hevs
      rw [h] at hevs
      injection hevs with hpair
      injection hpair with _ hevs'
      subst hevs'
      unfold guardEvents
      match hentry : st.swapImagesFences.getD inp.acquiredImage none with
      | some f =>
          refine ⟨?_, ?_, ?_, ?_, ?_⟩ <;>
            simp [List.count_cons, List.count_append]
      | none =>
          refine ⟨?_, ?_, ?_, ?_, ?_⟩ <;>
            simp [List.count_cons, List.count_append]
  · refine ⟨⟨fun _ => hsub, ?_⟩, ?_, ?_⟩
    · intro _
      exact ⟨"failed to submit command buffer!", by simp [frameLoopBody, hsub]⟩
    · intro _
      simp [frameLoopBody, hsub]
    · intro st' evs hevs
      simp [frameLoopBody, hsub] at hevs

/-- Witness for `frame_loop_fatal_iff_submit_fails`: a failing submit
aborts with the source's error text. -/
theorem frame_loop_fatal_iff_submit_fails_witness :
    frameLoopBody ⟨0, [none]⟩ ⟨0, 0, 0, 0, 0, -4, 0⟩
      = Except.error "failed to submit command buffer!" :=
  (frame_loop_fatal_iff_submit_fails ⟨0, [none]⟩ ⟨0, 0, 0, 0, 0, -4, 0⟩).2.1 (by decide)

/-! ## Multi-subpass composition (`vktriangle_subpass`)

Colour arithmetic of the shaders is modelled over `ℚ`.  The colorizer
fragment shader (`subpass_0_colorizer.frag`) writes, per instance,

```
case 0: colorRed   = vec4(fragColor.r, 0.0, 0.0, 1.0);
case 1: colorGreen = vec4(0.0, fragColor.g, 0.0, 1.0);
case 2: colorBlue  = vec4(0.0, 0.0, fragColor.b, 1.0);
```

and all four attachments are cleared to `(0,0,0,1)`
(`vktriangle_subpass.cpp`, `clears[4]`).  The compose fragment shader
(`subpass_2_compose.frag`) samples channel `r` of the red attachment,
`g` of the green one, `b` of the blue one, and replaces the colour by a
checkerboard whenever **any** of the three sampled channels is below
`0.01`:

```
if (any(lessThan(color, target))) {
    color = vec3(0.1, 0.1, 0.1);
    color.rgb *= vec3(int(mod(gl_FragCoord.x, 40) < 20));
    color.rgb *= vec3(int(mod(gl_FragCoord.y, 40) < 20));
}
```

Which pixels each of the three triangles covers, and with which
interpolated `fragColor`, is determined by the rasterizer and the
`passthrough.vert` shader and is kept abstract (`Coverage`). -/

/-- An RGBA colour with rational channels. -/
structure RGBA where
  r : ℚ
  g : ℚ
  b : ℚ
  a : ℚ
deriving DecidableEq

/-- The clear value `(0,0,0,1)` of every attachment of the subpass render pass. -/
def subpassClearValue : RGBA := ⟨0, 0, 0, 1⟩

/-- Colorizer output for instance 0 (the red triangle). -/
def colorizerRed (fragColor : RGBA) : RGBA := ⟨fragColor.r, 0, 0, 1⟩

/-- Colorizer output for instance 1 (the green triangle). -/
def colorizerGreen (fragColor : RGBA) : RGBA := ⟨0, fragColor.g, 0, 1⟩

/-- Colorizer output for instance 2 (the blue triangle). -/
def colorizerBlue (fragColor : RGBA) : RGBA := ⟨0, 0, fragColor.b, 1⟩

/-- Which of the three colorizer triangles cover a given pixel, and with
which interpolated `fragColor` (`none` = not covered). -/
structure Coverage where
  red : Option RGBA
  green : Option RGBA
  blue : Option RGBA
deriving DecidableEq

/-- The red attachment's value at the pixel after the colorizer subpasses. -/
def redAttachment (cov : Coverage) : RGBA :=
  match cov.red with
  | some fc => colorizerRed fc
  | none => subpassClearValue

/-- The green attachment's value at the pixel after the colorizer subpasses. -/
def greenAttachment (cov : Coverage) : RGBA :=
  match cov.green with
  | some fc => colorizerGreen fc
  | none => subpassClearValue

/-- The blue attachment's value at the pixel after the colorizer subpasses. -/
def blueAttachment (cov : Coverage) : RGBA :=
  match cov.blue with
  | some fc => colorizerBlue fc
  | none => subpassClearValue

/-- GLSL `mod(x, y) = x - y * floor(x/y)`. -/
def glslMod (x y : ℚ) : ℚ := x - y * ⌊x / y⌋

/-- The compose fragment shader (`subpass_2_compose.frag` `main`). -/
def composeFrag (redIn greenIn blueIn : RGBA) (fragCoordX fragCoordY : ℚ) : RGBA :=
  let colorRed := redIn.r
  let colorGreen := greenIn.g
  let colorBlue := blueIn.b
  if colorRed < 1/100 ∨ colorGreen < 1/100 ∨ colorBlue < 1/100 then
    let mx : ℚ := if glslMod fragCoordX 40 < 20 then 1 else 0
    let my : ℚ := if glslMod fragCoordY 40 < 20 then 1 else 0
    ⟨1/10 * mx * my, 1/10 * mx * my, 1/10 * mx * my, 1⟩
  else
    ⟨colorRed, colorGreen, colorBlue, 1⟩

/-- The final composed output at a pixel with coverage `cov` and fragment
coordinate `(x, y)`. -/
def composedOutput (cov : Coverage) (x y : ℚ) : RGBA :=
  composeFrag (redAttachment cov) (greenAttachment cov) (blueAttachment cov) x y

/-- The pixel is covered by triangle `i` and by no other. -/
def coveredExactlyOne (cov : Coverage) (i : Fin 3) : Prop :=
  match i with
  | 0 => cov.red.isSome ∧ cov.green = none ∧ cov.blue = none
  | 1 => cov.green.isSome ∧ cov.red = none ∧ cov.blue = none
  | 2 => cov.blue.isSome ∧ cov.red = none ∧ cov.green = none

/-- The checkerboard background colour: gray `0.1` where both
`mod(x,40) < 20` and `mod(y,40) < 20` hold, black otherwise. -/
def checkerboardColor (x y : ℚ) : RGBA :=
  if glslMod x 40 < 20 ∧ glslMod y 40 < 20 then ⟨1/10, 1/10, 1/10, 1⟩ else ⟨0, 0, 0, 1⟩

/-- Counterexample to C6 as stated.  A pixel covered by exactly one
colorizer triangle (the red one, with full-red fragment colour) at
fragment coordinate `(0.5, 0.5)` does **not** show only the red channel
nonzero in the composed output: the compose shader's
`any(lessThan(color, 0.01))` test fires because the green and blue
attachments hold the clear value 0, so the pixel gets the gray
checkerboard value, whose green channel is `0.1 ≠ 0`. -/
theorem subpass_single_coverage_counterexample :
    coveredExactlyOne ⟨some ⟨1, 0, 0, 1⟩, none, none⟩ 0
      ∧ (composedOutput ⟨some ⟨1, 0, 0, 1⟩, none, none⟩ (1/2) (1/2)).g ≠ 0
      ∧ composedOutput ⟨some ⟨1, 0, 0, 1⟩, none, none⟩ (1/2) (1/2)
          = ⟨1/10, 1/10, 1/10, 1⟩ := by
  refine ⟨⟨rfl, rfl, rfl⟩, ?_, ?_⟩ <;>
    · show _
      norm_num [composedOutput, composeFrag, redAttachment, greenAttachment, blueAttachment,
        colorizerRed, subpassClearValue, glslMod]

/-- C6 (amended).  In the composed output, a pixel covered by exactly one
of the three colorizer triangles gets the checkerboard background — not
the triangle's colour — because the other two sampled channels hold the
clear value `0 < 0.01` and the compose shader replaces the colour
whenever **any** sampled channel is below `0.01`; a pixel whose three
sampled channels are all below `0.01` likewise gets the checkerboard
background; the checkerboard is gray `0.1` where both `mod(x,40) < 20`
and `mod(y,40) < 20` hold and black otherwise; and only a pixel whose
three sampled channels are all `≥ 0.01` — one covered by all three
triangles with large-enough channels — shows the channel-wise
composition `(red.r, green.g, blue.b)`. -/
theorem subpass_compose_checkerboard (cov : Coverage) (x y : ℚ) (i : Fin 3) :
    (coveredExactlyOne cov i → composedOutput cov x y = checkerboardColor x y)
      ∧ ((redAttachment cov).r < 1/100 ∧ (greenAttachment cov).g < 1/100
            ∧ (blueAttachment cov).b < 1/100 →
          composedOutput cov x y = checkerboardColor x y)
      ∧ (¬ ((redAttachment cov).r < 1/100 ∨ (greenAttachment cov).g < 1/100
            ∨ (blueAttachment cov).b < 1/100) →
          composedOutput cov x y
            = ⟨(redAttachment cov).r, (greenAttachment cov).g, (blueAttachment cov).b, 1⟩)
      ∧ checkerboardColor x y
          = (if glslMod x 40 < 20 ∧ glslMod y 40 < 20 then (⟨1/10, 1/10, 1/10, 1⟩ : RGBA)
             else ⟨0, 0, 0, 1⟩) := by
  have hcheck : ∀ hlow : (redAttachment cov).r < 1/100 ∨ (greenAttachment cov).g < 1/100
      ∨ (blueAttachment cov).b < 1/100,
      composedOutput cov x y = checkerboardColor x y := by
    intro hlow
    unfold composedOutput composeFrag checkerboardColor
    rw [if_pos hlow]
    by_cases hx : glslMod x 40 < 20 <;> by_cases hy : glslMod y 40 < 20 <;>
      simp [hx, hy]
  refine ⟨?_, ?_, ?_, rfl⟩
  · intro hone
    apply hcheck
    match i, hone with
    | 0, ⟨_, hg, _⟩ =>
        refine Or.inr (Or.inl ?_)
        simp [greenAttachment, hg, subpassClearValue]
    | 1, ⟨_, hr, _⟩ =>
        refine Or.inl ?_
        simp [redAttachment, hr, subpassClearValue]
    | 2, ⟨_, hr, _⟩ =>
        refine Or.inl ?_
        simp [redAttachment, hr, subpassClearValue]
  · intro ⟨h1, _, _⟩
    exact hcheck (Or.inl h1)
  · intro hhigh
    unfold composedOutput composeFrag
    rw [if_neg hhigh]

/-- Witness for `subpass_compose_checkerboard`: a pixel covered only by
the green triangle at `(25, 3)` (where `mod(25,40) = 25 ≥ 20`) is black. -/
theorem subpass_compose_checkerboard_witness :
    composedOutput ⟨none, some ⟨0, 1, 0, 1⟩, none⟩ 25 3 = ⟨0, 0, 0, 1⟩ := by
  have h := (subpass_compose_checkerboard ⟨none, some ⟨0, 1, 0, 1⟩, none⟩ 25 3 1).1
    ⟨rfl, rfl, rfl⟩
  rw [h]
  norm_num [checkerboardColor, glslMod]

/-! ## The compute example's shader (`vkcompute/compute.comp`)

```
ivec2 size = imageSize(u_input_image);
ivec2 pixel_coord = ivec2(gl_GlobalInvocationID.xy);
if (pixel_coord.x < size.x && pixel_coord.y < size.y) {
    vec4 pixel = imageLoad(u_input_image, pixel_coord);
    vec3 invert = 1.0 - pixel.rgb;
    imageStore(u_output_image, pixel_coord, vec4(invert, 1.0));
}
```

`gl_GlobalInvocationID.xy` is an unsigned pair, so the `ivec2`
coordinate is never negative; the shader performs at most one
`imageStore`, modelled as the optional result of the invocation. -/

/-- A signed 2D coordinate (GLSL `ivec2`). -/
structure IVec2 where
  x : Int
  y : Int
deriving DecidableEq

/-- One invocation of the compute shader `main`: given the input image
size, the input image, and the invocation's `gl_GlobalInvocationID.xy`,
it returns the single `imageStore` it performs — destination coordinate
and stored value — or `none` when the bounds test fails and no store
happens. -/
def computeShaderMain (size : IVec2) (inputImage : IVec2 → RGBA) (gidX gidY : Nat) :
    Option (IVec2 × RGBA) :=
  let pixelCoord : IVec2 := ⟨Int.ofNat gidX, Int.ofNat gidY⟩
  if pixelCoord.x < size.x ∧ pixelCoord.y < size.y then
    let pixel := inputImage pixelCoord
    some (pixelCoord, ⟨1 - pixel.r, 1 - pixel.g, 1 - pixel.b, 1⟩)
  else
    none

/-- C10.  An invocation whose coordinate lies inside the input image
bounds stores the colour-inverted input pixel `(1-r, 1-g, 1-b, 1.0)` at
the same coordinate of the output image; an invocation whose coordinate
lies outside the bounds performs no image store at all. -/
theorem compute_shader_inverts_in_bounds (size : IVec2) (inputImage : IVec2 → RGBA)
    (gidX gidY : Nat) :
    ((Int.ofNat gidX < size.x ∧ Int.ofNat gidY < size.y) →
        computeShaderMain size inputImage gidX gidY
          = some (⟨Int.ofNat gidX, Int.ofNat gidY⟩,
              ⟨1 - (inputImage ⟨Int.ofNat gidX, Int.ofNat gidY⟩).r,
               1 - (inputImage ⟨Int.ofNat gidX, Int.ofNat gidY⟩).g,
               1 - (inputImage ⟨Int.ofNat gidX, Int.ofNat gidY⟩).b, 1⟩))
      ∧ (¬ (Int.ofNat gidX < size.x ∧ Int.ofNat gidY < size.y) →
          computeShaderMain size inputImage gidX gidY = none) := by
  constructor
  · intro hin
    unfold computeShaderMain
    rw [if_pos hin]
  · intro hout
    unfold computeShaderMain
    rw [if_neg hout]

/-- Witness for `compute_shader_inverts_in_bounds`: on a 256×256 image, a
constant 0.25-gray input pixel at `(3, 5)` is stored inverted as
0.75-gray, and the invocation at `(256, 0)` stores nothing. -/
theorem compute_shader_inverts_in_bounds_witness :
    computeShaderMain ⟨256, 256⟩ (fun _ => ⟨1/4, 1/4, 1/4, 1⟩) 3 5
        = some (⟨3, 5⟩, ⟨3/4, 3/4, 3/4, 1⟩)
      ∧ computeShaderMain ⟨256, 256⟩ (fun _ => ⟨1/4, 1/4, 1/4, 1⟩) 256 0 = none := by
  constructor
  · have h := (compute_shader_inverts_in_bounds ⟨256, 256⟩ (fun _ => ⟨1/4, 1/4, 1/4, 1⟩) 3 5).1
      (by constructor <;> decide)
    rw [h]
    norm_num
  · exact (compute_shader_inverts_in_bounds ⟨256, 256⟩ (fun _ => ⟨1/4, 1/4, 1/4, 1⟩) 256 0).2
      (by intro h; exact absurd h.1 (by decide))

/-! ## Producer-thread synchronisation (`vktriangle_external_memory`)

The coordination state is (`VulkanThreadOptions`, lines 126-132):

```
volatile int exposedImageFd;      // set to -1 in main before the thread starts
std::mutex syncMutex;
std::condition_variable signal;
```

The producer thread performs (lines 387-392, 798-800):

```
{ lock(syncMutex); exposedImageFd = imageFd; signal.notify_one(); }   // FD ready
lock(syncMutex);
while (signal.wait_for(lock, 1s) == timeout) { /* re-record + resubmit draw */ }
```

and the main thread (lines 1313-1322, 1772-1778):

```
{
    std::unique_lock<std::mutex> lock(threadOptions.syncMutex);
    if (threadOptions.exposedImageFd == -1) { signal.wait(lock); }
    printf("Waiting for done: %d\n", threadOptions.exposedImageFd);
}                                                  // lock scope closes (line 1321)
int importedImageFd = threadOptions.exposedImageFd; // read WITHOUT the mutex (line 1322)
...
{ lock(syncMutex); signal.notify_one(); }           // shut down
renderThread.join();
```

Note the main thread's final read of `exposedImageFd` (line 1322)
happens after the `unique_lock` scope has closed: it is the one access
to the shared flag performed without the mutex held.

Each thread's synchronisation-relevant actions are modelled as the trace
it executes; the producer's is parametrised by the number of 1-second
timeouts of its `wait_for` loop, the main thread's by whether the flag
was already set when it checked. -/

/-- The synchronisation actions of the external-memory example. -/
inductive SyncAction where
  /-- acquire `syncMutex` (constructor of `std::unique_lock`). -/
  | lockMutex
  /-- release `syncMutex` (destructor of `std::unique_lock`). -/
  | unlockMutex
  /-- write `options->exposedImageFd = v`. -/
  | setFd (v : Int)
  /-- read `options->exposedImageFd`. -/
  | readFd
  /-- `signal.notify_one()`. -/
  | notifyOne
  /-- `signal.wait(lock)` (blocks until notified). -/
  | waitSignal
  /-- `signal.wait_for(lock, 1s)` returning `cv_status::timeout`. -/
  | timedWaitTimedOut
  /-- `signal.wait_for(lock, 1s)` returning `cv_status::no_timeout`. -/
  | timedWaitNotified
  /-- `renderThread.join()`. -/
  | joinProducer
deriving DecidableEq

/-- `exposedImageFd`'s initial value, set by `main` before spawning the
producer (`threadOptions.exposedImageFd = -1`). -/
def initialExposedImageFd : Int := -1

/-- The producer thread's synchronisation trace
(`VulkanImageProducerThread`), publishing descriptor `fd` and then
looping `k` times on `wait_for` timeouts before the shutdown
notification arrives. -/
def producerSyncTrace (fd : Int) (k : Nat) : List SyncAction :=
  [SyncAction.lockMutex, SyncAction.setFd fd, SyncAction.notifyOne, SyncAction.unlockMutex,
   SyncAction.lockMutex]
    ++ List.replicate k SyncAction.timedWaitTimedOut
    ++ [SyncAction.timedWaitNotified, SyncAction.unlockMutex]

/-- The main thread's synchronisation trace: under the lock, check the
flag (a read, line 1317), wait on the condition variable unless it was
already set, read the flag again for the log line (line 1320); after the
lock scope closes, read the flag once more into `importedImageFd`
(line 1322) — this read happens without the mutex; later signal shutdown
under the lock and join the producer unconditionally.  `fdWasSet` is the
result of the `exposedImageFd == -1` check. -/
def mainSyncTrace (fdWasSet : Bool) : List SyncAction :=
  [SyncAction.lockMutex, SyncAction.readFd]
    ++ (if fdWasSet then [] else [SyncAction.waitSignal])
    ++ [SyncAction.readFd, SyncAction.unlockMutex,
        SyncAction.readFd,
        SyncAction.lockMutex, SyncAction.notifyOne, SyncAction.unlockMutex,
        SyncAction.joinProducer]

/-- Number of `notify_one` calls in a trace. -/
def notifyCount : List SyncAction → Nat
  | [] => 0
  | SyncAction.notifyOne :: rest => notifyCount rest + 1
  | _ :: rest => notifyCount rest

/-- Number of condition-variable uses (notifies and waits) in a trace. -/
def cvUseCount : List SyncAction → Nat
  | [] => 0
  | SyncAction.notifyOne :: rest => cvUseCount rest + 1
  | SyncAction.waitSignal :: rest => cvUseCount rest + 1
  | SyncAction.timedWaitTimedOut :: rest => cvUseCount rest + 1
  | SyncAction.timedWaitNotified :: rest => cvUseCount rest + 1
  | _ :: rest => cvUseCount rest

/-- `mutexGuarded depth trace` holds when every access to the shared flag
(`setFd`/`readFd`), every notify and every wait happens while the mutex
is held, and lock/unlock are balanced starting from `depth`. -/
def mutexGuarded : Nat → List SyncAction → Bool
  | depth, [] => depth = 0
  | depth, SyncAction.lockMutex :: rest => mutexGuarded (depth + 1) rest
  | depth, SyncAction.unlockMutex :: rest => depth ≥ 1 && mutexGuarded (depth - 1) rest
  | depth, SyncAction.setFd _ :: rest => depth ≥ 1 && mutexGuarded depth rest
  | depth, SyncAction.readFd :: rest => depth ≥ 1 && mutexGuarded depth rest
  | depth, SyncAction.notifyOne :: rest => depth ≥ 1 && mutexGuarded depth rest
  | depth, SyncAction.waitSignal :: rest => depth ≥ 1 && mutexGuarded depth rest
  | depth, SyncAction.timedWaitTimedOut :: rest => depth ≥ 1 && mutexGuarded depth rest
  | depth, SyncAction.timedWaitNotified :: rest => depth ≥ 1 && mutexGuarded depth rest
  | depth, SyncAction.joinProducer :: rest => depth = 0 && mutexGuarded depth rest

lemma notifyCount_replicate_timeout (k : Nat) :
    notifyCount (List.replicate k SyncAction.timedWaitTimedOut) = 0 := by
  induction k with
  | zero => rfl
  | succ n ih => simpa [List.replicate_succ, notifyCount] using ih

lemma notifyCount_append (l1 l2 : List SyncAction) :
    notifyCount (l1 ++ l2) = notifyCount l1 + notifyCount l2 := by
  induction l1 with
  | nil => simp [notifyCount]
  | cons a rest ih =>
      cases a <;> simp [notifyCount, ih]
      omega

lemma mutexGuarded_replicate_timeout (k : Nat) (rest : List SyncAction) :
    mutexGuarded 1 (List.replicate k SyncAction.timedWaitTimedOut ++ rest)
      = mutexGuarded 1 rest := by
  induction k with
  | zero => rfl
  | succ n ih => simpa [List.replicate_succ, mutexGuarded] using ih

/-- The flag/condition-variable operations of a trace performed WITHOUT
the mutex held (at lock depth 0), in order; lock/unlock adjust the depth
and `joinProducer` is not a flag or condition-variable operation. -/
def unguardedSyncOps : Nat → List SyncAction → List SyncAction
  | _, [] => []
  | depth, SyncAction.lockMutex :: rest => unguardedSyncOps (depth + 1) rest
  | depth, SyncAction.unlockMutex :: rest => unguardedSyncOps (depth - 1) rest
  | depth, SyncAction.joinProducer :: rest => unguardedSyncOps depth rest
  | depth, a :: rest => (if depth = 0 then [a] else []) ++ unguardedSyncOps depth rest

lemma unguardedSyncOps_replicate_timeout (k : Nat) (rest : List SyncAction) :
    unguardedSyncOps 1 (List.replicate k SyncAction.timedWaitTimedOut ++ rest)
      = unguardedSyncOps 1 rest := by
  induction k with
  | zero => rfl
  | succ n ih => simpa [List.replicate_succ, unguardedSyncOps] using ih

/-- Counterexample to C9 as stated.  The claim describes the exposed
image file descriptor as a mutex-guarded flag, but the main thread's
final read of `exposedImageFd` (`int importedImageFd =
threadOptions.exposedImageFd;`, line 1322) executes after its
`unique_lock` scope closed at line 1321: the faithful main-thread trace
contains a `readFd` immediately after the first `unlockMutex`, so the
trace is not fully mutex-guarded, for either outcome of the flag
check. -/
theorem external_memory_unguarded_fd_read :
    mainSyncTrace true
        = [SyncAction.lockMutex, SyncAction.readFd, SyncAction.readFd, SyncAction.unlockMutex,
           SyncAction.readFd,
           SyncAction.lockMutex, SyncAction.notifyOne, SyncAction.unlockMutex,
           SyncAction.joinProducer]
      ∧ mutexGuarded 0 (mainSyncTrace true) = false
      ∧ mutexGuarded 0 (mainSyncTrace false) = false := by
  refine ⟨rfl, ?_, ?_⟩ <;> decide

/-- C9 (amended).  In the external-memory example, coordination between
the producer thread and the main thread is a single flag
(`exposedImageFd`, initially `-1`) plus one condition variable notified
exactly twice — once by the producer, right after publishing the
descriptor under the mutex, and once by the main thread to signal
shutdown — after which the producer thread is joined unconditionally:
the join is the last action of the main thread for every outcome of its
flag check, immediately after the shutdown notification.  Every
operation of the producer on the flag or the condition variable happens
with the mutex held, and so does every operation of the main thread
except exactly one: its final re-read of the already-published
descriptor, performed after its lock scope has closed. -/
theorem external_memory_handoff_amended (fd : Int) (k : Nat) (fdWasSet : Bool) :
    initialExposedImageFd = -1
      ∧ notifyCount (producerSyncTrace fd k) = 1
      ∧ notifyCount (mainSyncTrace fdWasSet) = 1
      ∧ (producerSyncTrace fd k).take 4
          = [SyncAction.lockMutex, SyncAction.setFd fd, SyncAction.notifyOne,
             SyncAction.unlockMutex]
      ∧ (mainSyncTrace fdWasSet).getLast? = some SyncAction.joinProducer
      ∧ (mainSyncTrace fdWasSet).drop ((mainSyncTrace fdWasSet).length - 4)
          = [SyncAction.lockMutex, SyncAction.notifyOne, SyncAction.unlockMutex,
             SyncAction.joinProducer]
      ∧ mutexGuarded 0 (producerSyncTrace fd k) = true
      ∧ unguardedSyncOps 0 (producerSyncTrace fd k) = []
      ∧ unguardedSyncOps 0 (mainSyncTrace fdWasSet) = [SyncAction.readFd] := by
  refine ⟨rfl, ?_, ?_, rfl, ?_, ?_, ?_, ?_, ?_⟩
  · unfold producerSyncTrace
    rw [notifyCount_append, notifyCount_append, notifyCount_replicate_timeout]
    rfl
  · cases fdWasSet <;> rfl
  · cases fdWasSet <;> rfl
  · cases fdWasSet <;> rfl
  · unfold producerSyncTrace
    show mutexGuarded 0 ([SyncAction.lockMutex, SyncAction.setFd fd, SyncAction.notifyOne,
      SyncAction.unlockMutex, SyncAction.lockMutex]
        ++ (List.replicate k SyncAction.timedWaitTimedOut
            ++ [SyncAction.timedWaitNotified, SyncAction.unlockMutex])) = true
    show mutexGuarded 1 (List.replicate k SyncAction.timedWaitTimedOut
        ++ [SyncAction.timedWaitNotified, SyncAction.unlockMutex]) = true
    rw [mutexGuarded_replicate_timeout]
    rfl
  · unfold producerSyncTrace
    show unguardedSyncOps 0 ([SyncAction.lockMutex, SyncAction.setFd fd, SyncAction.notifyOne,
      SyncAction.unlockMutex, SyncAction.lockMutex]
        ++ (List.replicate k SyncAction.timedWaitTimedOut
            ++ [SyncAction.timedWaitNotified, SyncAction.unlockMutex])) = []
    show unguardedSyncOps 1 (List.replicate k SyncAction.timedWaitTimedOut
        ++ [SyncAction.timedWaitNotified, SyncAction.unlockMutex]) = []
    rw [unguardedSyncOps_replicate_timeout]
    rfl
  · cases fdWasSet <;> rfl

/-! ## Run-to-run determinism of `vktriangle`

`vktriangle.cpp`'s `main` (lines 104-966) reads only: the two
environment variables, the directory of its own executable
(`readlink("/proc/self/exe")`), the two SPIR-V shader files, and the
device (queried layout, rendered pixels).  It never reads a clock, a
random source, its PID or any other run-varying input; its geometry
lives in the vertex shader file, its clear colour is the constant
`{0,0,0,1}`, its draw call is the constant `vkCmdDraw(cmd, 3, 1, 0, 0)`
and its pixel-writing loop is `dumpPPM`.  The embedding therefore passes
the whole run access to a `RunSession` of run-varying inputs and shows
the produced file does not depend on it. -/

/-- Everything the program submits to the device for the one-shot render:
the two shader blobs, the clear colour, the viewport size and the one
draw call's parameters. -/
structure TriangleScene where
  vertShader : List Nat
  fragShader : List Nat
  clearColor : RGBA
  width : Nat
  height : Nat
  vertexCount : Nat
  instanceCount : Nat

/-- The machine-fixed inputs of a run: the executable's directory, the
file system, the device-reported subresource layout of the readback
image and the device's (deterministic) rendering function. -/
structure MachineState where
  binaryDir : String
  fileSystem : FileSystem
  layout : SubresourceLayout
  render : TriangleScene → Memory

/-- Inputs that differ between two runs of the same example on the same
machine with the same environment: wall-clock time, process id,
scheduling.  The source never reads any of them. -/
structure RunSession where
  startTimeNanos : Nat
  processId : Nat
  schedulerSeed : Nat

/-- A complete run of `vktriangle`'s `main`: decode the environment, load
the two SPIR-V shaders (aborting as the source does on failure), render
the fixed scene and dump the readback image; the result is the output
file's name and byte content. -/
def vktriangleRun (env : EnvState) (machine : MachineState) (_session : RunSession) :
    Except String (List Nat × List Nat) := do
  let config := decodeEnvVktriangle env
  let vertCode ← LoadSPIRV machine.fileSystem (machine.binaryDir ++ "/triangle.vert.spv")
  if vertCode.length = 0 then
    throw "failed to load vertex shader!"
  let fragCode ← LoadSPIRV machine.fileSystem (machine.binaryDir ++ "/passthrough.frag.spv")
  if fragCode.length = 0 then
    throw "failed to load fragment shader!"
  let scene : TriangleScene :=
    ⟨vertCode, fragCode, ⟨0, 0, 0, 1⟩, renderImageWidth, renderImageHeight, 3, 1⟩
  let mem := machine.render scene
  pure (config.outputFileName, dumpPPM renderImageWidth renderImageHeight machine.layout mem)

/-- C5.  Two runs of the example with the same environment variables on
the same machine produce byte-identical output (same file name, same PPM
bytes): the run's result is independent of every run-varying input
(time, pid, scheduling) because the geometry, clear colour and
pixel-writing loop consume none of them. -/
theorem vktriangle_run_deterministic (env : EnvState) (machine : MachineState)
    (s1 s2 : RunSession) :
    vktriangleRun env machine s1 = vktriangleRun env machine s2 := rfl

end Vkdemos
